import Mathlib

/-!
Shallow embedding of the SNP printer service (`src/app.py`) and proofs about
its spec.  Python strings are modelled as Lean `String`/`List Char` (ASCII
fragment); Python dictionaries of booking fields become a record whose fields
default to the empty string (Python falsiness of `''`/`None` is modelled as
`= ""`); the Pillow text-measurement capability and the outcome of network
sends are passed in as explicit environment parameters.
-/

namespace SNP

/-! ### Python string primitives used by `app.py` -/

/-- Characters stripped by Python `str.strip()` (ASCII whitespace). -/
def pyIsSpace (c : Char) : Bool :=
  c = ' ' || c = '\t' || c = '\n' || c = '\r' || c = '\x0b' || c = '\x0c'

/-- Python `str.strip()`. -/
def stripL (s : List Char) : List Char :=
  ((s.dropWhile pyIsSpace).reverse.dropWhile pyIsSpace).reverse

/-- Does the two-character needle `a,b` occur as a substring?  (Python `'XY' in s`.) -/
def contains2 (a b : Char) : List Char → Bool
  | [] => false
  | [_] => false
  | c :: d :: rest => (c = a && d = b) || contains2 a b (d :: rest)

/-- Python `s.replace('XY', '')` for a two-character needle: remove
left-to-right non-overlapping occurrences. -/
def removeSub2 (a b : Char) : List Char → List Char
  | [] => []
  | [c] => [c]
  | c :: d :: rest =>
    if c = a && d = b then removeSub2 a b rest
    else c :: removeSub2 a b (d :: rest)

/-- `clean_time.replace(':', ' ')`. -/
def colonToSpace (c : Char) : Char := if c = ':' then ' ' else c

/-- Worker for Python `str.split()` with no separator: split on runs of
whitespace, producing no empty tokens. -/
def splitWsAux : List Char → List Char → List (List Char)
  | [], acc => if acc.isEmpty then [] else [acc.reverse]
  | c :: rest, acc =>
    if pyIsSpace c then
      if acc.isEmpty then splitWsAux rest [] else acc.reverse :: splitWsAux rest []
    else splitWsAux rest (c :: acc)

/-- Python `str.split()` (whitespace runs, no empty tokens). -/
def splitWs (s : List Char) : List (List Char) := splitWsAux s []

/-- Numeric value of a digit string. -/
def digitsVal (ds : List Char) : Nat :=
  ds.foldl (fun n c => n * 10 + (c.toNat - 48)) 0

/-- Python `int(s)`: optional surrounding whitespace, optional sign, at least
one ASCII digit; anything else raises `ValueError`, modelled as `none`. -/
def pyInt (s : List Char) : Option Int :=
  match stripL s with
  | '+' :: ds => if !ds.isEmpty && ds.all Char.isDigit then some ((digitsVal ds : Nat) : Int) else none
  | '-' :: ds => if !ds.isEmpty && ds.all Char.isDigit then some (-((digitsVal ds : Nat) : Int)) else none
  | ds => if !ds.isEmpty && ds.all Char.isDigit then some ((digitsVal ds : Nat) : Int) else none

/-! ### `format_time_ampm` (app.py lines 459-519) -/

/-- Python `f"{minute:02d}"`: zero-pad to overall width 2 (sign included). -/
def pad2 (m : Int) : String :=
  let s := toString m
  if s.length < 2 then "0" ++ s else s

/-- The `hour_12` / `suffix` computation of `format_time_ampm`
(app.py lines 490-511). -/
def hour12_suffix (has_pm has_marker : Bool) (hour : Int) : Int × String :=
  if has_marker then
    (if hour = 0 then 12 else hour, if has_pm then "pm" else "am")
  else if hour = 0 then (12, "am")
  else if hour < 12 then (hour, "am")
  else if hour = 12 then (12, "pm")
  else (hour - 12, "pm")

/-- Output formatting of `format_time_ampm` after hour/minute extraction
(app.py lines 490-517): minutes omitted when zero. -/
def format_time_core (has_pm has_marker : Bool) (hour minute : Int) : String :=
  let hs := hour12_suffix has_pm has_marker hour
  if minute = 0 then toString hs.1 ++ hs.2
  else toString hs.1 ++ ":" ++ pad2 minute ++ hs.2

/-- `time_str = str(time_str).strip()` (app.py line 474). -/
def ftaStripped (s : String) : List Char := stripL s.data

/-- `time_upper = time_str.upper()` (app.py line 475). -/
def ftaUpper (s : String) : List Char := (ftaStripped s).map Char.toUpper

/-- `clean_time = time_upper.replace('PM','').replace('AM','').strip()`
(app.py line 483). -/
def ftaClean (s : String) : List Char :=
  stripL (removeSub2 'A' 'M' (removeSub2 'P' 'M' (ftaUpper s)))

/-- `parts = clean_time.replace(':', ' ').split()` (app.py line 486). -/
def ftaParts (s : String) : List (List Char) :=
  splitWs ((ftaClean s).map colonToSpace)

/-- `hour = int(parts[0]) if parts else 0` — `none` when `int` raises. -/
def ftaHour (s : String) : Option Int :=
  match ftaParts s with
  | [] => some 0
  | p :: _ => pyInt p

/-- `minute = int(parts[1]) if len(parts) > 1 else 0` — `none` when `int` raises. -/
def ftaMinute (s : String) : Option Int :=
  match ftaParts s with
  | _ :: q :: _ => pyInt q
  | _ => some 0

/-- `format_time_ampm` (app.py lines 459-519).  On a `ValueError` during
hour/minute extraction the Python code returns `time_str`, which at that
point has been re-bound to the stripped input. -/
def format_time_ampm (s : String) : String :=
  if s = "" then ""
  else
    match ftaHour s, ftaMinute s with
    | some hour, some minute =>
      format_time_core (contains2 'P' 'M' (ftaUpper s))
        (contains2 'P' 'M' (ftaUpper s) || contains2 'A' 'M' (ftaUpper s))
        hour minute
    | _, _ => String.mk (ftaStripped s)

/-- Rendering of a two-digit 24-hour field, used to enumerate `"HH:MM"` inputs. -/
def two_digit (n : Nat) : String :=
  if n < 10 then "0" ++ toString n else toString n

/-- Modelled from the spec's words (§4.1/§8): the canonical 12-hour form
`{hour 1-12}{am|pm}`, minutes omitted when zero, else `{hour}:{mm}{am|pm}`;
`00:00 → 12am`, `12:00 → 12pm`.  Used only to compare the code's output
against the spec. -/
def canonical_time_spec (h m : Nat) : String :=
  let h12 := if h = 0 then 12 else if h ≤ 12 then h else h - 12
  let sfx := if h < 12 then "am" else "pm"
  if m = 0 then toString h12 ++ sfx
  else toString h12 ++ ":" ++ two_digit m ++ sfx

/-! ### `expand_booking_type` (app.py lines 522-548) -/

/-- The `type_map` dictionary (app.py lines 536-546). -/
def type_map : List (String × String) :=
  [("BG", "Board Games"),
   ("VG", "Video Games"),
   ("BG+VG", "Board + Video Games"),
   ("BGVG", "Board + Video Games"),
   ("BG VG", "Board + Video Games"),
   ("BOARD", "Board Games"),
   ("VIDEO", "Video Games"),
   ("BOARD GAMES", "Board Games"),
   ("VIDEO GAMES", "Video Games")]

/-- `str(booking_type).upper().strip()` (app.py line 534). -/
def normType (s : String) : String :=
  String.mk (stripL (s.data.map Char.toUpper))

/-- `expand_booking_type` (app.py lines 522-548): `type_map.get(type_str,
booking_type)` returns the original argument on a miss. -/
def expand_booking_type (booking_type : String) : String :=
  if booking_type = "" then ""
  else
    match type_map.lookup (normType booking_type) with
    | some v => v
    | none => booking_type

/-! ### Notifications (app.py lines 241-299) -/

/-- The `config['notifications']` mapping. -/
structure NotifConfig where
  discord_webhook : String
  pushover_user : String
  pushover_token : String

/-- `send_notification` (app.py lines 289-299).  The outcome of each
channel's HTTP send is external; `discord_ok` / `pushover_ok` are the values
`send_discord_notification` / `send_pushover_notification` would return.
A channel is attempted exactly when its credentials are non-empty, and the
two appends are independent. -/
def send_notification (cfg : NotifConfig) (discord_ok pushover_ok : Bool) :
    List (String × Bool) :=
  (if cfg.discord_webhook ≠ "" then [("discord", discord_ok)] else []) ++
  (if cfg.pushover_user ≠ "" ∧ cfg.pushover_token ≠ "" then [("pushover", pushover_ok)] else [])

/-! ### Monitoring (app.py lines 314-334) -/

/-- One printer's slice of one `check_all_printers` cycle (app.py lines
318-334): `prev` is `config['monitoring']['printer_states'].get(name)`
(`none` before the first probe), `is_online` the fresh probe result.
Returns the stored state after the cycle and whether a notification was
sent (`prev is True and not is_online`, or `prev is False and is_online`). -/
def monitor_step (prev : Option Bool) (is_online : Bool) : Option Bool × Bool :=
  (some is_online,
   (prev == some true && !is_online) || (prev == some false && is_online))

/-- Iterate `monitor_step` over a probe sequence, collecting the
notification flag of each cycle. -/
def run_monitor : Option Bool → List Bool → List Bool
  | _, [] => []
  | st, b :: rest =>
    let s := monitor_step st b
    s.2 :: run_monitor s.1 rest

/-! ### Bitmap text rendering (app.py lines 355-681) -/

/-- A drawing operation recorded on an image: `draw.text((x, y), s, fill)`. -/
inductive DrawOp where
  | text (x : Nat) (y : Nat) (s : String) (fill : Nat)
  deriving DecidableEq

/-- A PIL image as far as the claims observe it: its dimensions, mode,
background color and the drawing calls made on it.  (Glyph rasterization is
the external font capability.) -/
structure Img where
  width : Nat
  height : Nat
  mode : String
  bg : Nat
  ops : List DrawOp
  deriving DecidableEq

/-- `PRINTER_WIDTH_PX = 384` (app.py line 360). -/
def PRINTER_WIDTH_PX : Nat := 384

/-- Environment capabilities of the layout/render code: whether Pillow is
importable, whether `printer.image` / `printer.qr` succeed on the device,
the beep configuration, the clock strings, and the font measurement
`draw.textbbox` as a function of font size (px) and text, returning
`(text_width, text_height)`. -/
structure Env where
  pillow : Bool
  imageOk : Bool
  qrOk : Bool
  beepEnabled : Bool
  beepTimes : Nat
  beepDuration : Nat
  now : String
  nowHM : String
  measure : Nat → String → Nat × Nat

/-- `create_text_image` (app.py lines 362-428): returns `None` when Pillow
is unavailable; otherwise measures the text, sets
`img_width = max(text_width + padding*2, max_width)` and
`img_height = text_height + padding*2` with `padding = 10`, creates a
mode-`'1'` image with white (`1`) background and draws the text black
(`0`) horizontally centered at `y = padding`. -/
def create_text_image (env : Env) (text : String) (font_size : Nat)
    (max_width : Nat) : Option Img :=
  if env.pillow then
    let tw := (env.measure font_size text).1
    let th := (env.measure font_size text).2
    let padding := 10
    let img_width := max (tw + padding * 2) max_width
    let img_height := th + padding * 2
    some { width := img_width, height := img_height, mode := "1", bg := 1,
           ops := [DrawOp.text ((img_width - tw) / 2) padding text 0] }
  else none

/-- `int(font_size * 0.6)` (app.py line 592); exact for the size 55 used. -/
def mediumFontSize (fs : Nat) : Nat := fs * 6 / 10

/-- `int(font_size * 0.5)` (app.py line 593); exact for the size 55 used. -/
def smallFontSize (fs : Nat) : Nat := fs / 2

/-- The portrait composite built by `create_landscape_ticket` before the
final rotation (app.py lines 604-676): up to four centered lines — name,
`"{pax}pax"`, expanded booking type (omitted if empty), normalized time
(omitted if empty) — with `padding = 20` and `line_spacing = 8`;
`img_width = max(line widths) + padding*2`, `img_height` the stacked line
heights. -/
def create_landscape_portrait (env : Env) (name pax time_str : String)
    (booking_type : Option String) (font_size : Nat) : Option Img :=
  if env.pillow then
    let name_text := if name ≠ "" then String.mk (name.data.map Char.toUpper) else "GUEST"
    let pax_text := pax ++ "pax"
    let type_text := match booking_type with
      | some bt => if bt ≠ "" then expand_booking_type bt else ""
      | none => ""
    let time_text := if time_str ≠ "" then format_time_ampm time_str else ""
    let nm := env.measure font_size name_text
    let pm := env.measure (mediumFontSize font_size) pax_text
    let tym := if type_text ≠ "" then env.measure (smallFontSize font_size) type_text else (0, 0)
    let tim := if time_text ≠ "" then env.measure (smallFontSize font_size) time_text else (0, 0)
    let padding := 20
    let line_spacing := 8
    let img_width := max (max nm.1 pm.1) (max tym.1 tim.1) + padding * 2
    let h0 := padding * 2 + nm.2 + line_spacing + pm.2
    let h1 := if type_text ≠ "" then h0 + tym.2 + line_spacing else h0
    let img_height := if time_text ≠ "" then h1 + tim.2 + line_spacing else h1
    let y1 := padding
    let y2 := y1 + nm.2 + line_spacing
    let y3 := y2 + pm.2 + line_spacing
    let y4 := if type_text ≠ "" then y3 + tym.2 + line_spacing else y3
    some { width := img_width, height := img_height, mode := "1", bg := 1,
           ops := [DrawOp.text ((img_width - nm.1) / 2) y1 name_text 0,
                   DrawOp.text ((img_width - pm.1) / 2) y2 pax_text 0] ++
                  (if type_text ≠ "" then [DrawOp.text ((img_width - tym.1) / 2) y3 type_text 0] else []) ++
                  (if time_text ≠ "" then [DrawOp.text ((img_width - tim.1) / 2) y4 time_text 0] else []) }
  else none

/-- `img.rotate(90, expand=True)` (app.py line 679): with `expand` the
dimensions swap; the pixel-level rotation of the raster content is the
external imaging capability and is not re-modelled. -/
def rotate90expand (img : Img) : Img :=
  { width := img.height, height := img.width, mode := img.mode, bg := img.bg,
    ops := img.ops }

/-- `create_landscape_ticket` (app.py lines 551-681): the portrait composite
rotated 90 degrees. -/
def create_landscape_ticket (env : Env) (name pax time_str : String)
    (booking_type : Option String) (font_size : Nat) : Option Img :=
  (create_landscape_portrait env name pax time_str booking_type font_size).map rotate90expand

/-! ### Directives and layout (app.py lines 684-918) -/

/-- One printer call issued by the layout code.  `setStyle` records exactly
the keyword arguments passed to `printer.set` (absent kwargs are `none`). -/
inductive Directive where
  | setStyle (align : Option String) (bold : Option Bool)
      (width : Option Nat) (height : Option Nat)
  | text (s : String)
  | image (img : Img)
  | qr (payload : String) (size : Nat)
  | buzz (times : Nat) (duration : Nat)
  | cut
  deriving DecidableEq

/-- `"=" * 32`. -/
def eq32 : String := String.mk (List.replicate 32 '=')

/-- `"-" * 32`. -/
def dash32 : String := String.mk (List.replicate 32 '-')

/-- `print_header` (app.py lines 688-693). -/
def print_header (title : String) : List Directive :=
  [Directive.setStyle (some "center") (some true) (some 2) (some 2),
   Directive.text (title ++ "\n"),
   Directive.setStyle (some "center") (some false) (some 1) (some 1),
   Directive.text (eq32 ++ "\n")]

/-- `print_footer` (app.py lines 696-711): rule, timestamp, rule, the
buzzer attempt when `beep` and the beep config are enabled, then the cut
when `cut`. -/
def print_footer (env : Env) (cut : Bool) (beep : Bool) : List Directive :=
  [Directive.setStyle (some "center") none (some 1) (some 1),
   Directive.text (dash32 ++ "\n"),
   Directive.text (env.now ++ "\n"),
   Directive.text (dash32 ++ "\n\n")] ++
  (if beep && env.beepEnabled then [Directive.buzz env.beepTimes env.beepDuration] else []) ++
  (if cut then [Directive.cut] else [])

/-- `print_message` (app.py lines 714-727). -/
def print_message (env : Env) (title message : String) (subtitle : Option String)
    (beep : Bool) : List Directive :=
  print_header "SIP & PLAY" ++
  [Directive.setStyle (some "center") (some true) none none,
   Directive.text (title ++ "\n")] ++
  (match subtitle with
   | some st => if st ≠ "" then
       [Directive.setStyle none (some false) none none, Directive.text (st ++ "\n")]
     else []
   | none => []) ++
  [Directive.text (eq32 ++ "\n\n"),
   Directive.setStyle (some "left") (some false) none none] ++
  (message.splitOn "\n").map (fun line => Directive.text (line ++ "\n")) ++
  [Directive.text "\n"] ++
  print_footer env true beep

/-- `print_reminder` (app.py lines 894-918); the QR attempt falls back to a
plain text line when the device rejects it. -/
def print_reminder (env : Env) (reminder_type : String) (staff_name : Option String)
    (message : String) (action_url : Option String) (beep : Bool) : List Directive :=
  print_header "SIP & PLAY" ++
  [Directive.setStyle (some "center") (some true) none none,
   Directive.text "REMINDER\n",
   Directive.setStyle none (some false) none none,
   Directive.text (reminder_type ++ "\n"),
   Directive.text (eq32 ++ "\n\n"),
   Directive.setStyle (some "left") none none none] ++
  (match staff_name with
   | some s => if s ≠ "" then [Directive.text ("Staff: " ++ s ++ "\n")] else []
   | none => []) ++
  [Directive.text ("Time: " ++ env.nowHM ++ "\n\n"),
   Directive.text (dash32 ++ "\n")] ++
  (message.splitOn "\n").map (fun line => Directive.text (line ++ "\n")) ++
  [Directive.text (dash32 ++ "\n\n")] ++
  (match action_url with
   | some u => if u ≠ "" then
       [Directive.setStyle (some "center") none none none,
        Directive.text "Scan to take action:\n"] ++
       (if env.qrOk then [Directive.qr u 6] else [Directive.text (u ++ "\n")]) ++
       [Directive.text "\n"]
     else []
   | none => []) ++
  print_footer env true beep

/-- The booking dictionary: every key `print_booking` reads, as a string
where `""` models an absent or falsy value. -/
structure Booking where
  customer_name : String
  name : String
  party_size : String
  guests : String
  time : String
  start_time : String
  booking_type : String
  type : String
  phone : String
  customer_phone : String
  email : String
  customer_email : String
  date : String
  end_time : String
  table : String
  table_number : String
  room : String
  duration : String
  status : String
  source : String
  deposit : String
  total : String
  amount : String
  notes : String
  special_requests : String
  comments : String

/-- A booking with every optional field empty. -/
def emptyBooking : Booking :=
  ⟨"", "", "", "", "", "", "", "", "", "", "", "", "",
   "", "", "", "", "", "", "", "", "", "", "", "", ""⟩

/-- Python `a or b` on field values (strings with `""` falsy). -/
def pyOr (a b : String) : String := if a ≠ "" then a else b

/-- `val and str(val).strip()` truthiness used by `print_field_pair`. -/
def pvalid (v : String) : Bool := v ≠ "" && !(stripL v.data).isEmpty

/-- `print_field_pair` (app.py lines 773-790). -/
def print_field_pair (label1 val1 label2 val2 : String) : List Directive :=
  if pvalid val1 then
    [Directive.setStyle none (some true) none none,
     Directive.text (label1 ++ ": "),
     Directive.setStyle none (some false) none none,
     Directive.text val1] ++
    (if label2 ≠ "" && pvalid val2 then
       [Directive.text " | ",
        Directive.setStyle none (some true) none none,
        Directive.text (label2 ++ ": "),
        Directive.setStyle none (some false) none none,
        Directive.text val2]
     else []) ++
    [Directive.text "\n"]
  else if label2 ≠ "" && pvalid val2 then
    [Directive.setStyle none (some true) none none,
     Directive.text (label2 ++ ": "),
     Directive.setStyle none (some false) none none,
     Directive.text (val2 ++ "\n")]
  else []

/-- Page 1 of `print_booking` (app.py lines 748-833), ending in
`print_footer(printer, beep=beep)`. -/
def booking_page1 (env : Env) (b : Booking) (beep : Bool) : List Directive :=
  let name := pyOr b.customer_name b.name
  let party_size := pyOr b.party_size b.guests
  let time_val := pyOr b.time b.start_time
  let booking_type := pyOr b.booking_type b.type
  let phone := pyOr b.phone b.customer_phone
  let email := pyOr b.email b.customer_email
  let table := pyOr b.table b.table_number
  let total := pyOr b.total b.amount
  let notes := pyOr b.notes (pyOr b.special_requests b.comments)
  [Directive.setStyle (some "center") (some true) (some 1) (some 1),
   Directive.text (eq32 ++ "\n"),
   Directive.setStyle none none (some 2) (some 2),
   Directive.text "BOOKING\n",
   Directive.setStyle none none (some 1) (some 1),
   Directive.text (eq32 ++ "\n\n"),
   Directive.setStyle (some "left") (some false) none none] ++
  print_field_pair "Name" name "Phone" phone ++
  (if pvalid email then
     [Directive.setStyle none (some true) none none,
      Directive.text "Email: ",
      Directive.setStyle none (some false) none none,
      Directive.text (email ++ "\n")]
   else []) ++
  print_field_pair "Date" b.date "Time" time_val ++
  print_field_pair "End" b.end_time "Duration" b.duration ++
  print_field_pair "Guests" party_size "Table" table ++
  print_field_pair "Type" booking_type "Room" b.room ++
  print_field_pair "Status" b.status "Source" b.source ++
  print_field_pair "Deposit" b.deposit "Total" total ++
  (if pvalid notes then
     [Directive.text "\n",
      Directive.text (dash32 ++ "\n"),
      Directive.setStyle none (some true) none none,
      Directive.text "NOTES:\n",
      Directive.setStyle none (some false) none none] ++
     (notes.splitOn "\n").map (fun line => Directive.text (line ++ "\n")) ++
     [Directive.text (dash32 ++ "\n")]
   else []) ++
  [Directive.text "\n"] ++
  print_footer env true beep

/-- The text fallback of page 2, used both when Pillow is unavailable and
when `printer.image` raises (app.py lines 856-879, duplicated branches). -/
def fallback_marker (display_name party_size booking_type time_val : String) :
    List Directive :=
  [Directive.setStyle (some "center") (some true) (some 2) (some 2),
   Directive.text (display_name ++ "\n"),
   Directive.setStyle none (some true) (some 1) (some 1),
   Directive.text (party_size ++ "pax\n")] ++
  (if booking_type ≠ "" then
     [Directive.setStyle none (some false) none none,
      Directive.text (expand_booking_type booking_type ++ "\n")]
   else []) ++
  (if time_val ≠ "" then
     [Directive.setStyle none (some false) none none,
      Directive.text (format_time_ampm time_val ++ "\n")]
   else [])

/-- The image-or-fallback step of page 2 (app.py lines 851-879): print the
landscape image when it exists and the device accepts it; otherwise the
text fallback. -/
def marker_image_or_fallback (ok : Bool) (ticket_img : Option Img)
    (display_name party_size booking_type time_val : String) : List Directive :=
  match ticket_img with
  | some img =>
    if ok then [Directive.image img]
    else fallback_marker display_name party_size booking_type time_val
  | none => fallback_marker display_name party_size booking_type time_val

/-- Page 2 of `print_booking` (app.py lines 835-891): the table marker,
always emitted; beeps only in `name_only` mode; always ends with the cut. -/
def booking_page2 (env : Env) (b : Booking) (beep : Bool) (name_only : Bool) :
    List Directive :=
  let name := pyOr b.customer_name b.name
  let party_size := pyOr b.party_size b.guests
  let time_val := pyOr b.time b.start_time
  let booking_type := pyOr b.booking_type b.type
  let display_name := if name ≠ "" then String.mk (name.data.map Char.toUpper) else "GUEST"
  let ticket_img := create_landscape_ticket env display_name
    (if party_size ≠ "" then party_size else "?")
    (if time_val ≠ "" then time_val else "")
    (if booking_type ≠ "" then some booking_type else none) 55
  [Directive.setStyle (some "center") none none none,
   Directive.text (eq32 ++ "\n")] ++
  marker_image_or_fallback env.imageOk ticket_img display_name party_size booking_type time_val ++
  [Directive.text (eq32 ++ "\n\n")] ++
  (if name_only && beep && env.beepEnabled then
     [Directive.buzz env.beepTimes env.beepDuration]
   else []) ++
  [Directive.cut]

/-- `print_booking` (app.py lines 730-891): page 1 is skipped exactly when
`name_only`; page 2 always prints. -/
def print_booking (env : Env) (b : Booking) (beep : Bool) (name_only : Bool) :
    List Directive :=
  (if name_only then [] else booking_page1 env b beep) ++
  booking_page2 env b beep name_only

/-- Number of buzzer calls in a directive sequence. -/
def countBuzz : List Directive → Nat
  | [] => 0
  | Directive.buzz _ _ :: rest => countBuzz rest + 1
  | _ :: rest => countBuzz rest

/-- A concrete environment used to instantiate theorems: Pillow present,
device accepts images and QR, beeping enabled, and a measurement capability
returning 10 px per character at height 20. -/
def sampleEnv : Env :=
  { pillow := true, imageOk := true, qrOk := true,
    beepEnabled := true, beepTimes := 2, beepDuration := 2,
    now := "12:00 01/01/2026", nowHM := "12:00",
    measure := fun _ s => (10 * s.length, 20) }

/-! ### Helper lemmas -/

theorem countBuzz_append (l1 l2 : List Directive) :
    countBuzz (l1 ++ l2) = countBuzz l1 + countBuzz l2 := by
  induction l1 with
  | nil => simp [countBuzz]
  | cons a t ih => cases a <;> (simp [countBuzz, ih]; try omega)

theorem countBuzz_lines (xs : List String) :
    countBuzz (xs.map fun line => Directive.text (line ++ "\n")) = 0 := by
  induction xs with
  | nil => rfl
  | cons a t ih => simpa [countBuzz] using ih

theorem countBuzz_ite (c : Prop) [Decidable c] (l1 l2 : List Directive) :
    countBuzz (if c then l1 else l2) = if c then countBuzz l1 else countBuzz l2 := by
  split_ifs <;> rfl

theorem countBuzz_field_pair (l1 v1 l2 v2 : String) :
    countBuzz (print_field_pair l1 v1 l2 v2) = 0 := by
  unfold print_field_pair
  split_ifs <;> simp [countBuzz, countBuzz_append]

theorem countBuzz_footer (env : Env) (c beep : Bool) :
    countBuzz (print_footer env c beep) = if beep && env.beepEnabled then 1 else 0 := by
  unfold print_footer
  split_ifs <;> simp_all [countBuzz, countBuzz_append]

theorem countBuzz_fallback (dn ps bt tv : String) :
    countBuzz (fallback_marker dn ps bt tv) = 0 := by
  unfold fallback_marker
  split_ifs <;> simp [countBuzz, countBuzz_append]

theorem countBuzz_marker (ok : Bool) (o : Option Img) (dn ps bt tv : String) :
    countBuzz (marker_image_or_fallback ok o dn ps bt tv) = 0 := by
  unfold marker_image_or_fallback
  rcases o with _ | img
  · exact countBuzz_fallback dn ps bt tv
  · split_ifs
    · rfl
    · exact countBuzz_fallback dn ps bt tv

theorem countBuzz_page1 (env : Env) (b : Booking) (beep : Bool) :
    countBuzz (booking_page1 env b beep) = if beep && env.beepEnabled then 1 else 0 := by
  unfold booking_page1
  simp [countBuzz, countBuzz_append, countBuzz_field_pair, countBuzz_footer,
    countBuzz_lines, countBuzz_ite]

theorem countBuzz_page2 (env : Env) (b : Booking) (beep no : Bool) :
    countBuzz (booking_page2 env b beep no) =
      if no && beep && env.beepEnabled then 1 else 0 := by
  unfold booking_page2
  by_cases hb : no && beep && env.beepEnabled <;>
    simp [hb, countBuzz, countBuzz_append, countBuzz_marker]

theorem getLast?_append_cut (xs ys : List Directive)
    (h : ys.getLast? = some Directive.cut) :
    (xs ++ ys).getLast? = some Directive.cut := by
  rw [List.getLast?_append, h]; rfl

theorem footer_getLast (env : Env) (beep : Bool) :
    (print_footer env true beep).getLast? = some Directive.cut := by
  unfold print_footer
  split_ifs <;> simp_all [List.getLast?_append, List.getLast?_concat]

theorem page2_getLast (env : Env) (b : Booking) (beep no : Bool) :
    (booking_page2 env b beep no).getLast? = some Directive.cut := by
  unfold booking_page2
  exact List.getLast?_concat _

/-! ### Claim theorems -/

/-- C1: every poll stores the fresh probe result unconditionally; a
notification is emitted exactly when the stored state is a non-unknown
boolean differing from the probe, never on the seeding poll; and the probe
sequence `[seed=false, false, true, true, false]` notifies exactly at the
third (`false→true`) and fifth (`true→false`) probes. -/
theorem monitoring_edge_trigger :
    (∀ prev b, (monitor_step prev b).1 = some b) ∧
    (∀ prev b, ((monitor_step prev b).2 = true ↔ ∃ p, prev = some p ∧ p ≠ b)) ∧
    (∀ b, (monitor_step none b).2 = false) ∧
    run_monitor none [false, false, true, true, false] =
      [false, false, true, false, true] := by
  decide

/-- C2 counterexample: with Pillow present and a measurement capability
reporting 400 px for a 40-character string, `create_text_image` yields a
bitmap 420 px wide — wider than the 384 px printable width, which the code
never clips. -/
theorem bitmap_width_counterexample :
    (create_text_image sampleEnv (String.mk (List.replicate 40 'X')) 80
        PRINTER_WIDTH_PX).map Img.width = some 420 ∧
    PRINTER_WIDTH_PX < 420 := by
  decide

/-- C2 amended: the renderer enforces a lower bound, not an upper bound:
`create_text_image` width is `max(measured + 2·padding, maxWidthPx)`, hence
always at least `maxWidthPx` and unclipped above; the landscape ticket's
width is its unclipped pre-rotation stacked height. -/
theorem bitmap_width_amended (env : Env) (text name pax tstr : String)
    (bt : Option String) (fs maxW : Nat) :
    ((create_text_image env text fs maxW).map Img.width =
      if env.pillow then some (max ((env.measure fs text).1 + 10 * 2) maxW) else none) ∧
    (∀ w, (create_text_image env text fs maxW).map Img.width = some w → maxW ≤ w) ∧
    ((create_landscape_ticket env name pax tstr bt fs).map Img.width =
      (create_landscape_portrait env name pax tstr bt fs).map Img.height) := by
  refine ⟨?_, ?_, ?_⟩
  · by_cases hp : env.pillow <;> simp [create_text_image, hp]
  · intro w hw
    by_cases hp : env.pillow <;> simp [create_text_image, hp] at hw
    omega
  · unfold create_landscape_ticket
    cases hc : create_landscape_portrait env name pax tstr bt fs <;>
      simp [hc, rotate90expand]

theorem bitmap_width_amended_witness : (384 : Nat) ≤ 420 :=
  (bitmap_width_amended sampleEnv (String.mk (List.replicate 40 'X')) "A" "4"
    "17:30" (some "BG") 80 384).2.1 420 (by decide)

/-- C3: when `name_only` is false both pages print, the single beep (when
the beep flag and beep config are enabled) sits in page 1's footer and page
2 emits none; when `name_only` is true only page 2 prints and it owns the
beep; so at most one page beeps and which one depends only on `name_only`. -/
theorem booking_beep_ownership (env : Env) (b : Booking) (beep no : Bool) :
    countBuzz (booking_page1 env b beep) = (if beep && env.beepEnabled then 1 else 0) ∧
    countBuzz (booking_page2 env b beep false) = 0 ∧
    countBuzz (booking_page2 env b beep true) = (if beep && env.beepEnabled then 1 else 0) ∧
    print_booking env b beep false = booking_page1 env b beep ++ booking_page2 env b beep false ∧
    print_booking env b beep true = booking_page2 env b beep true ∧
    countBuzz (print_booking env b beep no) = (if beep && env.beepEnabled then 1 else 0) := by
  refine ⟨countBuzz_page1 env b beep, by simp [countBuzz_page2],
    by simp [countBuzz_page2], rfl, rfl, ?_⟩
  cases no
  · show countBuzz (booking_page1 env b beep ++ booking_page2 env b beep false) = _
    rw [countBuzz_append, countBuzz_page1, countBuzz_page2]
    simp
  · show countBuzz (booking_page2 env b beep true) = _
    rw [countBuzz_page2]
    simp

/-- C4: the layout functions are total for every well-typed document —
including a booking with every optional field empty — and every directive
sequence they produce ends with the cut. -/
theorem layout_ends_with_cut (env : Env) (title msg rtype body : String)
    (sub staff url : Option String) (beep no : Bool) (b : Booking) :
    (print_message env title msg sub beep).getLast? = some Directive.cut ∧
    (print_reminder env rtype staff body url beep).getLast? = some Directive.cut ∧
    (print_booking env b beep no).getLast? = some Directive.cut ∧
    (print_booking env emptyBooking beep no).getLast? = some Directive.cut := by
  refine ⟨?_, ?_, ?_, ?_⟩
  · unfold print_message
    exact getLast?_append_cut _ _ (footer_getLast env beep)
  · unfold print_reminder
    exact getLast?_append_cut _ _ (footer_getLast env beep)
  · unfold print_booking
    exact getLast?_append_cut _ _ (page2_getLast env b beep no)
  · unfold print_booking
    exact getLast?_append_cut _ _ (page2_getLast env emptyBooking beep no)

/-- C5: `format_time_ampm` maps `00:00 ↦ 12am`, `12:00 ↦ 12pm`,
`17:30 ↦ 5:30pm`, `09:00 ↦ 9am`; and on every 24-hour `HH:MM` input
(hour 0-23, minute 0-59) it returns the spec's canonical 12-hour form —
hour 1-12, `am`/`pm`, minutes omitted when zero, else `:mm` two-digit. -/
theorem normalize_time_canonical (h m : Nat) (hh : h ≤ 23) (hm : m ≤ 59) :
    format_time_ampm "00:00" = "12am" ∧
    format_time_ampm "12:00" = "12pm" ∧
    format_time_ampm "17:30" = "5:30pm" ∧
    format_time_ampm "09:00" = "9am" ∧
    format_time_ampm (two_digit h ++ ":" ++ two_digit m) = canonical_time_spec h m := by
  refine ⟨by decide, by decide, by decide, by decide, ?_⟩
  have key : ∀ h' ∈ List.range 24, ∀ m' ∈ List.range 60,
      format_time_ampm (two_digit h' ++ ":" ++ two_digit m') = canonical_time_spec h' m' := by
    decide
  exact key h (List.mem_range.mpr (by omega)) m (List.mem_range.mpr (by omega))

theorem normalize_time_canonical_witness :
    format_time_ampm "00:00" = "12am" ∧
    format_time_ampm "12:00" = "12pm" ∧
    format_time_ampm "17:30" = "5:30pm" ∧
    format_time_ampm "09:00" = "9am" ∧
    format_time_ampm (two_digit 17 ++ ":" ++ two_digit 30) = canonical_time_spec 17 30 :=
  normalize_time_canonical 17 30 (by decide) (by decide)

/-- C6 counterexample: `"PM"` has no extractable integer hour, yet the
function returns `"12pm"`, not the input; and unparseable `" abc "` comes
back stripped (`"abc"`), not as the original string. -/
theorem unparseable_time_counterexample :
    format_time_ampm "PM" = "12pm" ∧
    format_time_ampm "PM" ≠ "PM" ∧
    format_time_ampm " abc " = "abc" ∧
    format_time_ampm " abc " ≠ " abc " := by
  decide

/-- C6 amended: when integer conversion of the extracted hour or minute
token fails, `format_time_ampm` returns the whitespace-stripped input (the
`except` path re-binds `time_str` to the stripped string first); inputs
with no tokens at all instead default the hour to 0 and return a formatted
time. -/
theorem unparseable_time_returns_stripped (s : String) (hs : s ≠ "")
    (hfail : ftaHour s = none ∨ ftaMinute s = none) :
    format_time_ampm s = String.mk (ftaStripped s) := by
  rcases hh : ftaHour s with _ | v <;> rcases hm : ftaMinute s with _ | w <;>
    simp_all [format_time_ampm, hs]

theorem unparseable_time_returns_stripped_witness :
    format_time_ampm "5:xx" = String.mk (ftaStripped "5:xx") :=
  unparseable_time_returns_stripped "5:xx" (by decide) (Or.inr (by decide))

/-- C7: `send_notification` returns one `(channel, ok)` entry per channel
with complete credentials — discord iff the webhook URL is non-empty,
pushover iff both user key and token are non-empty — incomplete channels
are absent, and each channel's presence/result is unaffected by the other
channel's outcome. -/
theorem send_notification_channels (cfg : NotifConfig) (d d' p p' : Bool) :
    (("discord", d) ∈ send_notification cfg d p ↔ cfg.discord_webhook ≠ "") ∧
    (("pushover", p) ∈ send_notification cfg d p ↔
      (cfg.pushover_user ≠ "" ∧ cfg.pushover_token ≠ "")) ∧
    ((send_notification cfg d p).length =
      (if cfg.discord_webhook ≠ "" then 1 else 0) +
      (if cfg.pushover_user ≠ "" ∧ cfg.pushover_token ≠ "" then 1 else 0)) ∧
    (("discord", d) ∈ send_notification cfg d p ↔
      ("discord", d) ∈ send_notification cfg d p') ∧
    (("pushover", p) ∈ send_notification cfg d p ↔
      ("pushover", p) ∈ send_notification cfg d' p) := by
  unfold send_notification
  have hdp : ("discord" : String) ≠ "pushover" := by decide
  have hpd : ("pushover" : String) ≠ "discord" := by decide
  by_cases h1 : cfg.discord_webhook = "" <;>
    by_cases h2 : cfg.pushover_user = "" <;>
      by_cases h3 : cfg.pushover_token = "" <;>
        simp [h1, h2, h3, hdp, hpd]

/-- C8: `expand_booking_type` is a case-insensitive lookup: every case
variant of `BG+VG`/`BGVG`/`BG VG` maps to `"Board + Video Games"`, `BG` to
`"Board Games"`, `VG` to `"Video Games"`, and any code missing from the
table comes back as the original value, not case-normalized. -/
theorem expand_booking_type_lookup (s : String)
    (h : type_map.lookup (normType s) = none) :
    expand_booking_type "bg+vg" = "Board + Video Games" ∧
    expand_booking_type "BGVG" = "Board + Video Games" ∧
    expand_booking_type "bgvg" = "Board + Video Games" ∧
    expand_booking_type "Bg Vg" = "Board + Video Games" ∧
    expand_booking_type "bg vg" = "Board + Video Games" ∧
    expand_booking_type "BG" = "Board Games" ∧
    expand_booking_type "bg" = "Board Games" ∧
    expand_booking_type "VG" = "Video Games" ∧
    expand_booking_type "vg" = "Video Games" ∧
    expand_booking_type s = s := by
  refine ⟨by decide, by decide, by decide, by decide, by decide, by decide,
    by decide, by decide, by decide, ?_⟩
  by_cases he : s = ""
  · subst he; rfl
  · unfold expand_booking_type
    rw [if_neg he, h]

theorem expand_booking_type_lookup_witness :
    expand_booking_type "bg+vg" = "Board + Video Games" ∧
    expand_booking_type "BGVG" = "Board + Video Games" ∧
    expand_booking_type "bgvg" = "Board + Video Games" ∧
    expand_booking_type "Bg Vg" = "Board + Video Games" ∧
    expand_booking_type "bg vg" = "Board + Video Games" ∧
    expand_booking_type "BG" = "Board Games" ∧
    expand_booking_type "bg" = "Board Games" ∧
    expand_booking_type "VG" = "Video Games" ∧
    expand_booking_type "vg" = "Video Games" ∧
    expand_booking_type "JENGA" = "JENGA" :=
  expand_booking_type_lookup "JENGA" (by decide)

/-- C9: with the imaging capability present, `create_text_image` makes a
mode-`'1'` white-background bitmap of width
`max(measuredWidth + 2·padding, maxWidthPx)` and height
`measuredHeight + 2·padding` (padding 10) and draws the text black,
horizontally centered, at `y = padding`. -/
theorem create_text_image_spec (env : Env) (text : String) (fs maxW : Nat)
    (hp : env.pillow = true) :
    create_text_image env text fs maxW = some
      { width := max ((env.measure fs text).1 + 10 * 2) maxW,
        height := (env.measure fs text).2 + 10 * 2,
        mode := "1", bg := 1,
        ops := [DrawOp.text
          ((max ((env.measure fs text).1 + 10 * 2) maxW - (env.measure fs text).1) / 2)
          10 text 0] } := by
  simp [create_text_image, hp]

theorem create_text_image_spec_witness :
    create_text_image sampleEnv "HI" 80 384 = some
      { width := 384, height := 40, mode := "1", bg := 1,
        ops := [DrawOp.text 182 10 "HI" 0] } :=
  create_text_image_spec sampleEnv "HI" 80 384 rfl

/-- C10: with an AM/PM marker the parsed hour is honored verbatim — no
range validation and no 24→12 conversion (`"17:30 PM" ↦ "17:30pm"`,
`"13:00 am" ↦ "13am"`); only hour 0 is rewritten to 12. -/
theorem marker_hour_passthrough (hpm : Bool) (h : Int) :
    format_time_ampm "17:30 PM" = "17:30pm" ∧
    format_time_ampm "13:00 am" = "13am" ∧
    (hour12_suffix hpm true h).1 = (if h = 0 then 12 else h) ∧
    (hour12_suffix hpm true h).2 = (if hpm then "pm" else "am") := by
  refine ⟨by decide, by decide, ?_, ?_⟩ <;> simp [hour12_suffix]

end SNP
